import Mathlib

/-!
# Verification of `src/main3d.js` ("Bare Vision v2" scene animator)

A shallow embedding of the scene-animator script in Lean 4. JavaScript
numbers are modelled as rationals (`ℚ`); the opaque environment pieces
(`Math.sin`, `Math.random`, the `SimplexNoise.noise3D` sampler) are taken
as parameters so every theorem quantifies over all of their behaviours.
Stateful per-frame mutation is modelled as explicit state passing.
-/

namespace Main3d

/-- The scroll listener (`src/main3d.js` lines 187-191):
`docH = document.documentElement.scrollHeight - window.innerHeight`,
`sc = docH > 0 ? window.scrollY / docH : 0`,
`dayT = Math.min(1, Math.max(0, sc))`.
Returns the value assigned to `dayT`. -/
def scrollHandler (scrollHeight innerHeight scrollY : ℚ) : ℚ :=
  let docH := scrollHeight - innerHeight
  let sc := if docH > 0 then scrollY / docH else 0
  min 1 (max 0 sc)

/-- The zero-noise fallback installed when the `SimplexNoise` global is
undefined (`src/main3d.js` lines 50-52): `{ noise3D: () => 0 }`. -/
def fallbackNoise3D : ℚ → ℚ → ℚ → ℚ := fun _ _ _ => 0

/-- One vertex's displacement in the dune loop (`src/main3d.js`
lines 205-208), parametrised by the noise sampler `noise3D`:
`n1 = noise3D(ix*0.004 + t*0.08, iz*0.004 + t*0.06, t*0.02)`,
`n2 = noise3D(ix*0.02 + t*0.03, iz*0.02 + t*0.02, t*0.01) * 0.8`,
`height = n1*3.6 + n2*1.6`. -/
def duneHeight (noise3D : ℚ → ℚ → ℚ → ℚ) (t ix iz : ℚ) : ℚ :=
  let n1 := noise3D (ix * 0.004 + t * 0.08) (iz * 0.004 + t * 0.06) (t * 0.02)
  let n2 := noise3D (ix * 0.02 + t * 0.03) (iz * 0.02 + t * 0.02) (t * 0.01) * 0.8
  n1 * 3.6 + n2 * 1.6

/-- The dune state touched by the displacement loop: the baseline heights
`baseY` captured once at construction (`src/main3d.js` lines 64-65) and the
current vertex heights (the position attribute's Y column). The X and Z
columns of the position attribute are never written, so they appear as
separate read-only parameters of the frame update. -/
structure DuneState where
  baseY : ℕ → ℚ
  heights : ℕ → ℚ

/-- The dune displacement loop of one animation frame (`src/main3d.js`
lines 202-210): for every vertex `i`,
`posAttr.setY(i, baseY[i] + height)` where `height` is `duneHeight` at the
vertex's (x,z) and the elapsed time `t`. `baseY` is not written. -/
def duneFrame (noise3D : ℚ → ℚ → ℚ → ℚ) (t : ℚ) (xs zs : ℕ → ℚ)
    (s : DuneState) : DuneState :=
  { baseY := s.baseY
    heights := fun i => s.baseY i + duneHeight noise3D t (xs i) (zs i) }

/-- Several animation frames in a row, the `n`-th frame running at elapsed
time `ts n` (the animate loop advances `t` between frames). -/
def duneFrames (noise3D : ℚ → ℚ → ℚ → ℚ) (ts : ℕ → ℚ) (xs zs : ℕ → ℚ) :
    ℕ → DuneState → DuneState
  | 0, s => s
  | n + 1, s => duneFrame noise3D (ts n) xs zs (duneFrames noise3D ts xs zs n s)

/-- The `mesh.userData` record set up in `createOrb` (`src/main3d.js` lines 131-138). -/
structure OrbUserData where
  drift : ℚ
  radius : ℚ
  metal : Bool
  baseX : ℚ
  baseZ : ℚ
  wobble : ℚ
deriving DecidableEq

/-- An orb mesh: its position, its rotation (the two components the
animate loop touches), its material tint, and its `userData`. -/
structure Orb where
  x : ℚ
  y : ℚ
  z : ℚ
  rotX : ℚ
  rotY : ℚ
  tint : ℕ
  userData : OrbUserData
deriving DecidableEq

/-- The `createOrb` factory (`src/main3d.js` lines 102-141): builds the sphere mesh at
`pos` with `userData.drift = 0.01 + random*0.028`,
`userData.wobble = random*0.8 + 0.6`, `baseX`/`baseZ` copied from the
position. The two `Math.random()` draws are the parameters
`driftRand`, `wobbleRand`. -/
def createOrb (driftRand wobbleRand : ℚ) (radius : ℚ) (px py pz : ℚ)
    (metal : Bool) (tint : ℕ) : Orb :=
  { x := px, y := py, z := pz, rotX := 0, rotY := 0, tint := tint
    userData :=
      { drift := 0.01 + driftRand * 0.028
        radius := radius
        metal := metal
        baseX := px
        baseZ := pz
        wobble := wobbleRand * 0.8 + 0.6 } }

/-- The `Math.random()` draws consumed for one orb of the spawn loop
(`src/main3d.js` lines 145-153), in source order. -/
structure SpawnRand where
  xRand : ℚ
  zRand : ℚ
  yRand : ℚ
  metalRand : ℚ
  radiusRand : ℚ
  driftRand : ℚ
  wobbleRand : ℚ

/-- The constant `totalOrbs = 12` (`src/main3d.js` line 144). -/
def totalOrbs : ℕ := 12

/-- The spawn loop (`src/main3d.js` lines 145-153):
`x = (random-0.5)*320`, `z = -20 - random*420`, `y = 8 + random*36`,
`isMetal = random > 0.35`, `tint = isMetal ? 0xffffff : 0xD3A8D9`,
`radius = 1.6 + random*3.2`; each orb is added to `orbGroup`. -/
def spawnOrbs (rs : ℕ → SpawnRand) : List Orb :=
  (List.range totalOrbs).map fun i =>
    let r := rs i
    let x := (r.xRand - 0.5) * 320
    let z := -20 - r.zRand * 420
    let y := 8 + r.yRand * 36
    let isMetal := r.metalRand > 0.35
    let tint : ℕ := if isMetal then 0xffffff else 0xD3A8D9
    createOrb r.driftRand r.wobbleRand (1.6 + r.radiusRand * 3.2) x y z
      isMetal tint

/-- One orb's update in the animate loop (`src/main3d.js` lines 215-230),
parametrised by `Math.sin` (`sinF`) and the two `Math.random()` draws the
recycle branch may consume (`yRand` for the new height, `xRand` for the
new `baseX`):
`o.position.x = ud.baseX + sin(t*ud.wobble + idx) * (0.5 + idx % 3 * 0.4)`,
`o.position.z += sin(t*0.12 + idx) * 0.02`,
`o.position.y -= ud.drift * 0.4`,
then if `o.position.y < -8`: `o.position.y = 18 + random*36`,
`ud.baseX = (random-0.5)*320`, `o.position.x = ud.baseX`;
finally `o.rotation.y += 0.002 + (idx % 4)*0.0012`,
`o.rotation.x += 0.0018`. -/
def orbStep (sinF : ℚ → ℚ) (t : ℚ) (idx : ℕ) (yRand xRand : ℚ)
    (o : Orb) : Orb :=
  let ud := o.userData
  let x1 := ud.baseX + sinF (t * ud.wobble + (idx : ℚ)) *
    (0.5 + ((idx % 3 : ℕ) : ℚ) * 0.4)
  let z1 := o.z + sinF (t * 0.12 + (idx : ℚ)) * 0.02
  let y1 := o.y - ud.drift * 0.4
  let rotY1 := o.rotY + (0.002 + ((idx % 4 : ℕ) : ℚ) * 0.0012)
  let rotX1 := o.rotX + 0.0018
  if y1 < -8 then
    let newBaseX := (xRand - 0.5) * 320
    { x := newBaseX, y := 18 + yRand * 36, z := z1
      rotX := rotX1, rotY := rotY1, tint := o.tint
      userData := { ud with baseX := newBaseX } }
  else
    { x := x1, y := y1, z := z1
      rotX := rotX1, rotY := rotY1, tint := o.tint, userData := ud }

/-- The loop `orbGroup.children.forEach((o, idx) => ...)` (`src/main3d.js`
lines 215-230): every orb of the group is updated in place with its index;
`rands idx` supplies the recycle branch's random draws for orb `idx`. -/
def orbsFrame (sinF : ℚ → ℚ) (t : ℚ) (rands : ℕ → ℚ × ℚ)
    (orbs : List Orb) : List Orb :=
  orbs.mapIdx fun idx o => orbStep sinF t idx (rands idx).1 (rands idx).2 o

/-- The constant `dustCount = 420` (`src/main3d.js` line 156). -/
def dustCount : ℕ := 420

/-- Initialization of the flat dust position buffer (`src/main3d.js`
lines 159-163): for particle `i`,
`dustPos[i*3+0] = (random-0.5)*900`, `dustPos[i*3+1] = random*60 + 2`,
`dustPos[i*3+2] = -random*600`; `rs i` supplies particle `i`'s three
`Math.random()` draws in source order. The buffer is modelled as a
function from flat index to value. -/
def dustInit (rs : ℕ → ℚ × ℚ × ℚ) (j : ℕ) : ℚ :=
  let i := j / 3
  if j % 3 = 0 then ((rs i).1 - 0.5) * 900
  else if j % 3 = 1 then (rs i).2.1 * 60 + 2
  else -(rs i).2.2 * 600

/-- The movement applied to dust particle `i`'s height in one frame
(`src/main3d.js` line 235):
`posBuffer[idx + 1] += Math.sin(t * 0.2 + i) * 0.0008 - 0.0006`. -/
def dustMoveY (sinF : ℚ → ℚ) (t : ℚ) (i : ℕ) (y : ℚ) : ℚ :=
  y + sinF (t * 0.2 + (i : ℚ)) * 0.0008 - 0.0006

/-- One dust particle's full height update (`src/main3d.js`
lines 235-236): move, then recycle if below 0.5:
`if (posBuffer[idx + 1] < 0.5) posBuffer[idx + 1] = 62 + Math.random() * 8`.
`r` is the recycle branch's `Math.random()` draw. -/
def dustStepY (sinF : ℚ → ℚ) (t : ℚ) (i : ℕ) (r : ℚ) (y : ℚ) : ℚ :=
  let y1 := dustMoveY sinF t i y
  if y1 < 0.5 then 62 + r * 8 else y1

/-- The dust update loop of one frame (`src/main3d.js` lines 233-237)
over the first `n` particles: iteration `i` writes only the flat index
`i*3 + 1` of the buffer, with `dustStepY`. -/
def dustLoop (sinF : ℚ → ℚ) (t : ℚ) (rand : ℕ → ℚ) :
    ℕ → (ℕ → ℚ) → (ℕ → ℚ)
  | 0, buf => buf
  | i + 1, buf =>
    let buf1 := dustLoop sinF t rand i buf
    Function.update buf1 (i * 3 + 1) (dustStepY sinF t i (rand i) (buf1 (i * 3 + 1)))

/-- One whole dust frame: the loop over all `dustCount` particles. -/
def dustFrame (sinF : ℚ → ℚ) (t : ℚ) (rand : ℕ → ℚ) (buf : ℕ → ℚ) :
    ℕ → ℚ :=
  dustLoop sinF t rand dustCount buf

/-- Several dust frames in a row, frame `k` at elapsed time `ts k` with
random draws `rands k`. -/
def dustFrames (sinF : ℚ → ℚ) (ts : ℕ → ℚ) (rands : ℕ → ℕ → ℚ) :
    ℕ → (ℕ → ℚ) → (ℕ → ℚ)
  | 0, buf => buf
  | k + 1, buf => dustFrame sinF (ts k) (rands k) (dustFrames sinF ts rands k buf)

/-- The slice of `THREE.PerspectiveCamera` state the resize handler
touches: the `aspect` field, and the aspect currently baked into the
projection matrix. -/
structure CameraState where
  aspect : ℚ
  projectionAspect : ℚ

/-- The renderer's drawing-buffer size, set by `renderer.setSize`. -/
structure RendererState where
  width : ℚ
  height : ℚ

/-- The call `camera.updateProjectionMatrix()`: recomputes the projection matrix
from the camera's current parameters, in particular its `aspect`. -/
def updateProjectionMatrix (c : CameraState) : CameraState :=
  { c with projectionAspect := c.aspect }

/-- The call `renderer.setSize(w, h)`. -/
def rendererSetSize (w h : ℚ) (r : RendererState) : RendererState :=
  { r with width := w, height := h }

/-- The resize listener (`src/main3d.js` lines 180-184):
`camera.aspect = innerWidth / innerHeight`,
`camera.updateProjectionMatrix()`,
`renderer.setSize(innerWidth, innerHeight)`. -/
def onResize (innerWidth innerHeight : ℚ) (c : CameraState)
    (r : RendererState) : CameraState × RendererState :=
  let c1 := updateProjectionMatrix { c with aspect := innerWidth / innerHeight }
  (c1, rendererSetSize innerWidth innerHeight r)

/-- The externally observable effects of one run of the setup IIFE
(`src/main3d.js` lines 4-274). -/
structure SetupEffects where
  consoleLogged : Bool
  sceneConstructed : Bool
  listenersRegistered : ℕ
  animationStarted : Bool
  errorThrown : Bool
  usedFallbackNoise : Bool

/-- The setup IIFE's control flow over its environment: the mobile guard
(lines 9-14, with its `console.log`), the container guard (lines 17-18, a
bare `return`), then unconditional uses of the global `THREE` starting at
`new THREE.Scene()` (line 20). Under JavaScript semantics, reading the
undeclared global `THREE` when the library is not loaded throws an
uncaught `ReferenceError`; only `SimplexNoise` is guarded (lines 50-52),
replaced by the zero fallback while the scene is built and animated
normally. The three listeners are mousemove, resize and scroll
(lines 174-191). -/
def setupRun (isMobile containerPresent threePresent simplexPresent :
    Bool) : SetupEffects :=
  if isMobile then
    { consoleLogged := true, sceneConstructed := false
      listenersRegistered := 0, animationStarted := false
      errorThrown := false, usedFallbackNoise := false }
  else if !containerPresent then
    { consoleLogged := false, sceneConstructed := false
      listenersRegistered := 0, animationStarted := false
      errorThrown := false, usedFallbackNoise := false }
  else if !threePresent then
    { consoleLogged := false, sceneConstructed := false
      listenersRegistered := 0, animationStarted := false
      errorThrown := true, usedFallbackNoise := false }
  else
    { consoleLogged := false, sceneConstructed := true
      listenersRegistered := 3, animationStarted := true
      errorThrown := false, usedFallbackNoise := !simplexPresent }

end Main3d

/-- A concrete orb exercising the recycle branch: it sits at height -9
with drift 0.01, so one frame's drift takes it below the -8 floor. -/
def sampleOrb : Main3d.Orb :=
  { x := 0, y := -9, z := 0, rotX := 0, rotY := 0, tint := 0xffffff
    userData :=
      { drift := 0.01, radius := 1, metal := true
        baseX := 0, baseZ := 0, wobble := 1 } }

/-- C3: terrain displacement is non-accumulating: one frame leaves `baseY`
unchanged, writes every vertex's height to `baseY[i]` plus a displacement
computed only from that vertex's (x,z) and the elapsed time `t` (two noise
samples scaled by 3.6 and 1.6), the result does not depend on the heights
written in previous frames, and `baseY` survives any number of frames. -/
theorem dune_displacement_nonaccumulating (noise3D : ℚ → ℚ → ℚ → ℚ)
    (t : ℚ) (ts : ℕ → ℚ) (xs zs b h h' : ℕ → ℚ) (i n : ℕ) :
    (Main3d.duneFrame noise3D t xs zs ⟨b, h⟩).baseY = b ∧
      (Main3d.duneFrame noise3D t xs zs ⟨b, h⟩).heights i
        = b i + Main3d.duneHeight noise3D t (xs i) (zs i) ∧
      (Main3d.duneFrame noise3D t xs zs ⟨b, h⟩).heights
        = (Main3d.duneFrame noise3D t xs zs ⟨b, h'⟩).heights ∧
      (Main3d.duneFrames noise3D ts xs zs n ⟨b, h⟩).baseY = b := by
  refine ⟨rfl, rfl, rfl, ?_⟩
  induction n with
  | zero => rfl
  | succ n ih => simpa [Main3d.duneFrames, Main3d.duneFrame] using ih

/-- C10: with the zero fallback noise object, every displacement is 0 and
every vertex's height after a frame equals its stored baseline exactly. -/
theorem fallback_noise_flat_terrain (t : ℚ) (xs zs : ℕ → ℚ)
    (s : Main3d.DuneState) (i : ℕ) :
    Main3d.duneHeight Main3d.fallbackNoise3D t (xs i) (zs i) = 0 ∧
      (Main3d.duneFrame Main3d.fallbackNoise3D t xs zs s).heights i
        = s.baseY i := by
  constructor
  · simp [Main3d.duneHeight, Main3d.fallbackNoise3D]
  · simp [Main3d.duneFrame, Main3d.duneHeight, Main3d.fallbackNoise3D]

/-- C1: the time-of-day scalar is always clamped to the closed interval
[0,1]: for every scroll height, viewport height and scroll position
(including negative overscroll and positions beyond the document), the
scroll handler assigns `dayT` a value in [0,1]. -/
theorem dayT_mem_unit_interval (scrollHeight innerHeight scrollY : ℚ) :
    0 ≤ Main3d.scrollHandler scrollHeight innerHeight scrollY ∧
      Main3d.scrollHandler scrollHeight innerHeight scrollY ≤ 1 := by
  unfold Main3d.scrollHandler
  constructor
  · exact le_min (by norm_num) (le_max_left 0 _)
  · exact min_le_left 1 _

/-- C9: the scroll handler never divides by zero: when
`scrollHeight - innerHeight` is zero or negative, the scroll fraction is
defined as 0 instead of performing the division, and `dayT` is assigned 0. -/
theorem scrollHandler_no_div_by_zero (scrollHeight innerHeight scrollY : ℚ)
    (h : scrollHeight - innerHeight ≤ 0) :
    Main3d.scrollHandler scrollHeight innerHeight scrollY = 0 := by
  unfold Main3d.scrollHandler
  simp only
  rw [if_neg (by linarith)]
  simp

/-- Witness for C9 at a concrete input: a 500-pixel document inside a
600-pixel viewport with scroll position 100 yields `dayT = 0`. -/
theorem scrollHandler_no_div_by_zero_witness :
    (500 : ℚ) - 600 ≤ 0 ∧ Main3d.scrollHandler 500 600 100 = 0 :=
  ⟨by norm_num, scrollHandler_no_div_by_zero 500 600 100 (by norm_num)⟩

/-- C2: recycling always repositions above a defined ceiling. When an
orb's height falls below -8 during the frame update, the update resets it
to a height in [18, 54]; when a dust particle's height falls below 0.5,
the update resets it to a height in [62, 70]; both new heights are
strictly above the respective floor threshold. The `Math.random()` draws
are in [0, 1). -/
theorem recycle_repositions_above_floor (sinF : ℚ → ℚ) (t : ℚ)
    (idx i : ℕ) (yRand xRand dustRand : ℚ) (o : Main3d.Orb) (yD : ℚ)
    (hy0 : 0 ≤ yRand) (hy1 : yRand < 1)
    (hd0 : 0 ≤ dustRand) (hd1 : dustRand < 1)
    (horb : o.y - o.userData.drift * 0.4 < -8)
    (hdust : Main3d.dustMoveY sinF t i yD < 0.5) :
    (18 ≤ (Main3d.orbStep sinF t idx yRand xRand o).y ∧
      (Main3d.orbStep sinF t idx yRand xRand o).y ≤ 54 ∧
      -8 < (Main3d.orbStep sinF t idx yRand xRand o).y) ∧
    (62 ≤ Main3d.dustStepY sinF t i dustRand yD ∧
      Main3d.dustStepY sinF t i dustRand yD ≤ 70 ∧
      (0.5 : ℚ) < Main3d.dustStepY sinF t i dustRand yD) := by
  have ho : (Main3d.orbStep sinF t idx yRand xRand o).y = 18 + yRand * 36 := by
    unfold Main3d.orbStep
    simp only
    rw [if_pos horb]
  have hdu : Main3d.dustStepY sinF t i dustRand yD = 62 + dustRand * 8 := by
    unfold Main3d.dustStepY
    simp only
    rw [if_pos hdust]
  rw [ho, hdu]
  refine ⟨⟨?_, ?_, ?_⟩, ?_, ?_, ?_⟩ <;> nlinarith

/-- Witness for C2 at concrete inputs: with zero sine, zero random draws
and `sampleOrb`, both recycle branches fire and land at heights 18 and 62
inside the stated intervals. -/
theorem recycle_repositions_above_floor_witness :
    ((0 : ℚ) ≤ 0 ∧ (0 : ℚ) < 1 ∧
      sampleOrb.y - sampleOrb.userData.drift * 0.4 < -8 ∧
      Main3d.dustMoveY (fun _ => 0) 0 0 0 < 0.5) ∧
    ((18 ≤ (Main3d.orbStep (fun _ => 0) 0 0 0 0 sampleOrb).y ∧
      (Main3d.orbStep (fun _ => 0) 0 0 0 0 sampleOrb).y ≤ 54 ∧
      -8 < (Main3d.orbStep (fun _ => 0) 0 0 0 0 sampleOrb).y) ∧
    (62 ≤ Main3d.dustStepY (fun _ => 0) 0 0 0 0 ∧
      Main3d.dustStepY (fun _ => 0) 0 0 0 0 ≤ 70 ∧
      (0.5 : ℚ) < Main3d.dustStepY (fun _ => 0) 0 0 0 0)) :=
  ⟨⟨le_rfl, by norm_num, by norm_num [sampleOrb], by norm_num [Main3d.dustMoveY]⟩,
    recycle_repositions_above_floor (fun _ => 0) 0 0 0 0 0 0 sampleOrb 0
      le_rfl (by norm_num) le_rfl (by norm_num)
      (by norm_num [sampleOrb]) (by norm_num [Main3d.dustMoveY])⟩

/-- Indexing into a `mapIdx` through the optional getter. -/
theorem mapIdx_getElem_opt {α β : Type} (l : List α) (f : ℕ → α → β) (i : ℕ) :
    (l.mapIdx f)[i]? = (l[i]?).map (f i) := by
  by_cases h : i < l.length
  · have h2 : i < (l.mapIdx f).length := by rw [List.length_mapIdx]; exact h
    rw [List.getElem?_eq_getElem h2, List.getElem?_eq_getElem h, Option.map_some']
    congr 1
    calc (l.mapIdx f)[i] = (l.mapIdx f).get ⟨i, h2⟩ :=
        (List.get_eq_getElem (l.mapIdx f) ⟨i, h2⟩).symm
      _ = f i (l.get ⟨i, h⟩) := List.get_mapIdx l f i h h2
      _ = f i l[i] := by rw [List.get_eq_getElem]
  · have h1 : l.length ≤ i := le_of_not_lt h
    rw [List.getElem?_eq_none h1, List.getElem?_eq_none (by rwa [List.length_mapIdx])]
    rfl

/-- The orb update keeps each orb's identity: radius, material class,
tint, drift, wobble and baseZ are unchanged by `orbStep` (only position,
rotation and possibly baseX change). -/
theorem orbStep_keeps_identity (sinF : ℚ → ℚ) (t : ℚ) (idx : ℕ)
    (yRand xRand : ℚ) (o : Main3d.Orb) :
    (Main3d.orbStep sinF t idx yRand xRand o).userData.radius
        = o.userData.radius ∧
      (Main3d.orbStep sinF t idx yRand xRand o).userData.metal
        = o.userData.metal ∧
      (Main3d.orbStep sinF t idx yRand xRand o).tint = o.tint := by
  unfold Main3d.orbStep
  by_cases h : o.y - o.userData.drift * 0.4 < -8 <;> simp [h]

/-- C6: the orb population is fixed. The spawn loop creates exactly 12
orbs; the frame update preserves the list's length, maps each orb at
index `i` to `orbStep` of that same orb (repositioned, never removed or
replaced), and keeps each orb's radius and material class; no orb is
added or destroyed. -/
theorem orb_population_fixed (rs : ℕ → Main3d.SpawnRand) (sinF : ℚ → ℚ)
    (t : ℚ) (rands : ℕ → ℚ × ℚ) (orbs : List Main3d.Orb) (i : ℕ) :
    (Main3d.spawnOrbs rs).length = 12 ∧
    (Main3d.orbsFrame sinF t rands orbs).length = orbs.length ∧
    (Main3d.orbsFrame sinF t rands orbs)[i]?
      = (orbs[i]?).map (fun o => Main3d.orbStep sinF t i (rands i).1 (rands i).2 o) ∧
    ((Main3d.orbsFrame sinF t rands orbs)[i]?).map (fun o => o.userData.radius)
      = (orbs[i]?).map (fun o => o.userData.radius) ∧
    ((Main3d.orbsFrame sinF t rands orbs)[i]?).map (fun o => o.userData.metal)
      = (orbs[i]?).map (fun o => o.userData.metal) := by
  have hpt : (Main3d.orbsFrame sinF t rands orbs)[i]?
      = (orbs[i]?).map (fun o => Main3d.orbStep sinF t i (rands i).1 (rands i).2 o) :=
    mapIdx_getElem_opt orbs _ i
  refine ⟨?_, ?_, hpt, ?_, ?_⟩
  · simp [Main3d.spawnOrbs, Main3d.totalOrbs]
  · simp [Main3d.orbsFrame, List.length_mapIdx]
  · rw [hpt]
    cases orbs[i]? with
    | none => rfl
    | some o => simp [(orbStep_keeps_identity sinF t i (rands i).1 (rands i).2 o).1]
  · rw [hpt]
    cases orbs[i]? with
    | none => rfl
    | some o =>
      simp [(orbStep_keeps_identity sinF t i (rands i).1 (rands i).2 o).2.1]

/-- The dust loop over the first `n` particles writes only flat indices
congruent to 1 mod 3 (the y components). -/
theorem dustLoop_fixes_xz (sinF : ℚ → ℚ) (t : ℚ) (rand : ℕ → ℚ) (n : ℕ)
    (buf : ℕ → ℚ) (j : ℕ) (hj : j % 3 ≠ 1) :
    Main3d.dustLoop sinF t rand n buf j = buf j := by
  induction n with
  | zero => rfl
  | succ i ih =>
    simp only [Main3d.dustLoop]
    rw [Function.update_noteq]
    · exact ih
    · intro hEq
      omega

/-- C8: dust particles never move horizontally. Over any number of
frames the dust update writes only the y component (flat index `i*3+1`)
of the position buffer: every flat index not congruent to 1 mod 3 keeps
its current value, and in particular the x and z values assigned by the
initialization loop survive the whole run, recycling included. -/
theorem dust_never_moves_horizontally (sinF : ℚ → ℚ) (ts : ℕ → ℚ)
    (rands : ℕ → ℕ → ℚ) (rs : ℕ → ℚ × ℚ × ℚ) (buf : ℕ → ℚ) (k j : ℕ)
    (hj : j % 3 ≠ 1) :
    Main3d.dustFrames sinF ts rands k buf j = buf j ∧
      Main3d.dustFrames sinF ts rands k (Main3d.dustInit rs) j
        = Main3d.dustInit rs j := by
  have hgen : ∀ (b : ℕ → ℚ), Main3d.dustFrames sinF ts rands k b j = b j := by
    intro b
    induction k with
    | zero => rfl
    | succ m ih =>
      simp only [Main3d.dustFrames, Main3d.dustFrame]
      rw [dustLoop_fixes_xz sinF (ts m) (rands m) Main3d.dustCount _ j hj, ih]
  exact ⟨hgen buf, hgen (Main3d.dustInit rs)⟩

/-- Witness for C8 at concrete inputs: flat index 0 (an x component) is
untouched by one frame starting from the zero buffer. -/
theorem dust_never_moves_horizontally_witness :
    0 % 3 ≠ 1 ∧
      (Main3d.dustFrames (fun _ => 0) (fun _ => 0) (fun _ _ => 0) 1
          (fun _ => (0 : ℚ)) 0 = (fun _ => (0 : ℚ)) 0 ∧
        Main3d.dustFrames (fun _ => 0) (fun _ => 0) (fun _ _ => 0) 1
            (Main3d.dustInit fun _ => (0, 0, 0)) 0
          = Main3d.dustInit (fun _ => (0, 0, 0)) 0) :=
  ⟨by decide,
    dust_never_moves_horizontally (fun _ => 0) (fun _ => 0) (fun _ _ => 0)
      (fun _ => (0, 0, 0)) (fun _ => (0 : ℚ)) 1 0 (by decide)⟩

/-- C7: the resize handler is consistent: after it runs, the camera's
aspect is `innerWidth / innerHeight`, the projection matrix was recomputed
from that aspect, the renderer's drawing size is the same
`(innerWidth, innerHeight)` pair, and camera aspect equals renderer
width over height. -/
theorem resize_handler_consistent (innerWidth innerHeight : ℚ)
    (c : Main3d.CameraState) (r : Main3d.RendererState) :
    (Main3d.onResize innerWidth innerHeight c r).1.aspect
        = innerWidth / innerHeight ∧
      (Main3d.onResize innerWidth innerHeight c r).1.projectionAspect
        = (Main3d.onResize innerWidth innerHeight c r).1.aspect ∧
      (Main3d.onResize innerWidth innerHeight c r).2.width = innerWidth ∧
      (Main3d.onResize innerWidth innerHeight c r).2.height = innerHeight ∧
      (Main3d.onResize innerWidth innerHeight c r).1.aspect
        = (Main3d.onResize innerWidth innerHeight c r).2.width
          / (Main3d.onResize innerWidth innerHeight c r).2.height :=
  ⟨rfl, rfl, rfl, rfl, rfl⟩

/-- C5: the container-presence guard prevents any scene construction: on a
non-mobile device with the container element absent, setup returns before
constructing any scene object, registering any listener or starting the
animation loop, and emits neither console output nor an error, whatever
the state of the two libraries. -/
theorem container_guard_prevents_construction
    (threePresent simplexPresent : Bool) :
    (Main3d.setupRun false false threePresent simplexPresent).sceneConstructed
        = false ∧
      (Main3d.setupRun false false threePresent simplexPresent).listenersRegistered
        = 0 ∧
      (Main3d.setupRun false false threePresent simplexPresent).animationStarted
        = false ∧
      (Main3d.setupRun false false threePresent simplexPresent).consoleLogged
        = false ∧
      (Main3d.setupRun false false threePresent simplexPresent).errorThrown
        = false :=
  ⟨rfl, rfl, rfl, rfl, rfl⟩

/-- Counterexample to C4: with the rendering library absent (non-mobile,
container present) the setup run throws an uncaught error, while both
genuine skip paths — mobile device and missing container — finish without
an error; so absence of the rendering library does not make the program
skip in the same way. -/
theorem three_absent_crashes_not_skips :
    (Main3d.setupRun false true false true).errorThrown = true ∧
      (Main3d.setupRun true true true true).errorThrown = false ∧
      (Main3d.setupRun false false true true).errorThrown = false :=
  ⟨rfl, rfl, rfl⟩

/-- C4 (amended): absence of the rendering library is not guarded: if the
`THREE` global is missing (non-mobile, container present) the setup
throws an uncaught reference error at the first scene construction and no
animation starts — it does not skip cleanly like the mobile and
missing-container paths. Only the noise library's absence is tolerated:
with `THREE` present and `SimplexNoise` absent the scene is built and
animated normally with the zero-noise fallback. -/
theorem three_absence_unguarded (simplexPresent : Bool) :
    (Main3d.setupRun false true false simplexPresent).errorThrown = true ∧
      (Main3d.setupRun false true false simplexPresent).sceneConstructed
        = false ∧
      (Main3d.setupRun false true false simplexPresent).animationStarted
        = false ∧
      (Main3d.setupRun false true true false).animationStarted = true ∧
      (Main3d.setupRun false true true false).usedFallbackNoise = true ∧
      (Main3d.setupRun false true true false).errorThrown = false :=
  ⟨rfl, rfl, rfl, rfl, rfl, rfl⟩
